import Mathlib

/-!
Verification of the DoorOpener authentication and brute-force-protection
engine (`app.py`).

The embedding models the `/open-door` request handler (`open_door`) and its
helpers (`get_client_identifier`, `get_delay_seconds`,
`check_global_rate_limit`, `is_request_suspicious`, `validate_pin_input`)
as pure functions over an explicit state:

* in-memory rate-limit tables (`ip_failed_attempts`, `ip_blocked_until`,
  `session_failed_attempts`, `session_blocked_until`, the global counter and
  its window start) become a record of total functions over keys;
* the signed session cookie (`blocked_until_ts` and the `oidc_*` keys)
  becomes a record;
* all clock readings inside one request (`get_current_time()` and
  `time.time()`) are modelled as the single instant `now`, in whole seconds;
* Python `hash` is an uninterpreted parameter `pyHash` (the real function is
  seed-randomized per process);
* strings are `List Char`; the model restricts `str.isdigit` to the ASCII
  decimal digits (Python additionally accepts non-ASCII Unicode digits,
  which are outside this model's input alphabet);
* the outbound Home Assistant call is an oracle input `ActuatorOutcome`;
  the model records whether the call was made.
-/

namespace DoorOpener

/-- Values that the JSON body's pin field can carry in the model: a string,
an integer, or JSON null (Python `None`). -/
inductive PyVal : Type
  | str (s : List Char)
  | int (n : Int)
  | pyNone
deriving DecidableEq, Repr

/-- Python truthiness of a `PyVal`: empty string, zero and `None` are falsy. -/
def PyVal.truthy : PyVal → Bool
  | .str s => !s.isEmpty
  | .int n => n != 0
  | .pyNone => false

/-- Model of Python `str.isdigit()` over the ASCII fragment: nonempty and
every character a decimal digit. -/
def pyIsdigit (s : List Char) : Bool :=
  !s.isEmpty && s.all Char.isDigit

/-- Embedding of `validate_pin_input` (app.py:414-423).  A non-string raises
`ValueError`, which the function's own `except` turns into `(False, None)`;
a string passes iff it is all digits with length between 4 and 8. -/
def validate_pin_input : PyVal → Bool × Option (List Char)
  | .str s =>
      if pyIsdigit s && decide (4 ≤ s.length) && decide (s.length ≤ 8) then
        (true, some s)
      else (false, none)
  | _ => (false, none)

/-- Embedding of `get_delay_seconds` (app.py:377-379):
`min(2 ** (attempt_count - 1), 16) if attempt_count > 0 else 0`. -/
def get_delay_seconds (attempt_count : Nat) : Nat :=
  if attempt_count > 0 then min (2 ^ (attempt_count - 1)) 16 else 0

/-- Fuel-driven digit printer behind `decimalRepr`; the fuel only bounds
the recursion depth and `decimalRepr` always supplies enough. -/
def decimalReprAux : Nat → Nat → List Char
  | 0, _ => []
  | fuel + 1, n =>
      if n < 10 then [Nat.digitChar n]
      else decimalReprAux fuel (n / 10) ++ [Nat.digitChar (n % 10)]

/-- Decimal representation of a natural number, least significant digit
last, mirroring what the f-string in `get_client_identifier` prints for the
(nonnegative) hash bucket. -/
def decimalRepr (n : Nat) : List Char := decimalReprAux (n + 1) n

/-- Hash bucket used by `get_client_identifier` (app.py:336):
`hash(user_agent + accept_lang) % 10000` on the truncated headers.
Python `%` with a positive modulus is `Int.emod`. -/
def uaBucket (h : List Char → Int) (user_agent accept_lang : List Char) : Nat :=
  ((h (user_agent.take 100 ++ accept_lang.take 50)).emod 10000).toNat

/-- Embedding of the composite identifier built by `get_client_identifier`
(app.py:320-338): `f"{primary_ip}:{hash(user_agent + accept_lang) % 10000}"`
with the User-Agent truncated to 100 characters and Accept-Language to 50.
The session-id generation side effect is not modelled (the session id is an
input). -/
def get_client_identifier (h : List Char → Int) (primary_ip user_agent accept_lang : List Char) :
    List Char :=
  primary_ip ++ ':' :: decimalRepr (uaBucket h user_agent accept_lang)

/-- Embedding of `is_request_suspicious` (app.py:395-411): missing or short
User-Agent, or a known non-browser substring in its lowercasing. -/
def is_request_suspicious (user_agent : List Char) : Bool :=
  user_agent.isEmpty || decide (user_agent.length < 10) ||
    [String.toList "curl", String.toList "wget", String.toList "python-requests",
      String.toList "bot", String.toList "crawler"].any
      (fun a => decide (a <:+: user_agent.map Char.toLower))

/-- Static configuration of the engine (config.ini reads at app.py:167-278)
plus the user directory's effective pin table and the process hash seed. -/
structure Config : Type where
  MAX_ATTEMPTS : Nat
  BLOCK_TIME : Nat
  MAX_GLOBAL_ATTEMPTS_PER_HOUR : Nat
  SESSION_MAX_ATTEMPTS : Nat
  oauthEnabled : Bool
  require_pin_for_oidc : Bool
  test_mode : Bool
  oidc_user_group : List Char
  users : List (List Char × List Char)
  pyHash : List Char → Int

/-- In-memory rate-limit tables (app.py:264-269).  The defaultdicts become
total functions: counters default to `0`, block entries to `none`. -/
structure RLState : Type where
  ip_failed_attempts : List Char → Nat
  ip_blocked_until : List Char → Option Nat
  session_failed_attempts : List Char → Nat
  session_blocked_until : List Char → Option Nat
  global_failed_attempts : Nat
  global_last_reset : Nat

/-- The signed session cookie fields the engine reads and writes. -/
structure SessionData : Type where
  blocked_until_ts : Option Nat
  oidc_authenticated : Bool
  oidc_user : Option (List Char)
  oidc_groups : List (List Char)
  oidc_exp : Option Nat
deriving DecidableEq, Repr

/-- An incoming `/open-door` request: transport metadata plus the JSON body.
`body = none` models a missing or unparseable JSON document; `some p` models
a parsed object whose pin field is `p` (`none` when the key is absent). -/
structure Request : Type where
  remote_addr : List Char
  user_agent : List Char
  accept_language : List Char
  body : Option (Option PyVal)

/-- Outcome of the outbound Home Assistant service call: an HTTP status or a
`requests.RequestException` (`raise_for_status` turns 4xx/5xx into the
latter). -/
inductive ActuatorOutcome : Type
  | status (code : Nat)
  | exc
deriving DecidableEq, Repr

/-- Reason attached to the 401 failed-authentication response
(app.py:994-1013). -/
inductive FailReason : Type
  | sessionBlockedNew
  | ipBlockedNew
  | remaining (n : Int)
deriving DecidableEq, Repr

/-- Terminal verdict of one `/open-door` request, mirroring each `return`
of `open_door`. -/
inductive Verdict : Type
  | suspiciousBlocked
  | globalLimited
  | sessionBlockedPersisted (ts : Nat)
  | sessionBlockedMemory (ts : Nat)
  | ipBlockedMemory (ts : Nat)
  | blockEnforced (bu : Option Nat)
  | pinRequired
  | invalidFormat
  | authFailure (r : FailReason) (bu : Option Nat)
  | successTest (user : List Char)
  | successOpen (user : List Char)
  | haApiError (code : Nat) (user : List Char)
  | haUnreachable
deriving DecidableEq, Repr

/-- Full result of one request: verdict, post-states, whether the actuator
call was issued, and the progressive delay slept. -/
structure OutDoor : Type where
  verdict : Verdict
  rl : RLState
  sess : SessionData
  actuatorCalled : Bool
  delayApplied : Nat

/-- Pointwise update of a keyed table. -/
def upd {α : Type} (f : List Char → α) (k : List Char) (v : α) : List Char → α :=
  fun k' => if k' = k then v else f k'

/-- Embedding of `check_global_rate_limit` (app.py:382-392): reset the
hourly window if more than an hour elapsed, then compare against the global
budget.  Returns the verdict together with the (possibly reset) state. -/
def check_global_rate_limit (cfg : Config) (now : Nat) (rl : RLState) : Bool × RLState :=
  let rl' := if now - rl.global_last_reset > 3600 then
      { rl with global_failed_attempts := 0, global_last_reset := now }
    else rl
  (decide (rl'.global_failed_attempts < cfg.MAX_GLOBAL_ATTEMPTS_PER_HOUR), rl')

/-- Truthiness-guarded activity test for the persisted cookie block
(app.py:522-523): `sess_block_ts and time.time() < float(sess_block_ts)`. -/
def persActive (o : Option Nat) (now : Nat) : Bool :=
  match o with
  | none => false
  | some t => t != 0 && decide (now < t)

/-- Activity test for an in-memory block entry (a `datetime` is always
truthy, so only `now < blockedUntil` matters). -/
def memActive (o : Option Nat) (now : Nat) : Bool :=
  match o with
  | none => false
  | some t => decide (now < t)

/-- Popping the four `oidc_*` session keys (app.py:605-608). -/
def clearOidc (sess : SessionData) : SessionData :=
  { sess with
    oidc_authenticated := false, oidc_user := none, oidc_groups := [], oidc_exp := none }

/-- Expiry re-check of the federated session (app.py:599-613): when OIDC is
enabled and the session is flagged authenticated but `oidc_exp` is falsy or
in the past, pop the four `oidc_*` keys and drop the flag.  Returns the
effective `oidc_auth` flag and the updated session. -/
def oidc_expiry_check (cfg : Config) (now : Nat) (sess : SessionData) : Bool × SessionData :=
  let oidc_auth := cfg.oauthEnabled && sess.oidc_authenticated
  let expired := match sess.oidc_exp with
    | none => true
    | some e => e == 0 || decide (e < now)
  if oidc_auth && expired then (false, clearOidc sess)
  else (oidc_auth, sess)

/-- Linear scan of the effective pin table (app.py:823-826): first user
whose pin equals the request pin wins. -/
def matchPin : List (List Char × List Char) → List Char → Option (List Char)
  | [], _ => none
  | (u, p) :: rest, pin => if pin = p then some u else matchPin rest pin

/-- Whether the in-request block re-check fires (app.py:630-633 and
app.py:830-833): in-memory session or IP block active at `now`. -/
def recheckBlocked (rl : RLState) (session_id identifier : List Char) (now : Nat) : Bool :=
  memActive (rl.session_blocked_until session_id) now ||
    memActive (rl.ip_blocked_until identifier) now

/-- The `blocked_until` timestamp the re-check reports (app.py:658-667 and
app.py:858-867): start from the active session block if any, then fold in
the active IP block through `max(blocked_until_ts or ts, ts)`. -/
def recheckBlockedUntil (rl : RLState) (session_id identifier : List Char) (now : Nat) :
    Option Nat :=
  let bu : Option Nat :=
    if memActive (rl.session_blocked_until session_id) now then
      some (((rl.session_blocked_until session_id)).getD 0)
    else none
  if memActive (rl.ip_blocked_until identifier) now then
    let ts := ((rl.ip_blocked_until identifier)).getD 0
    some (max (bu.getD ts) ts)
  else bu

/-- Counter/block reset on the OIDC success path (app.py:680-692): only when
neither in-memory block is active; the persisted cookie mirror is left
untouched. -/
def oidcSuccessReset (rl : RLState) (session_id identifier : List Char) (now : Nat) : RLState :=
  if !memActive (rl.session_blocked_until session_id) now &&
      !memActive (rl.ip_blocked_until identifier) now then
    { rl with
      ip_failed_attempts := upd rl.ip_failed_attempts identifier 0,
      session_failed_attempts := upd rl.session_failed_attempts session_id 0,
      ip_blocked_until := upd rl.ip_blocked_until identifier none,
      session_blocked_until := upd rl.session_blocked_until session_id none }
  else rl

/-- Verdict of the actuator phase (app.py:694-792 and 888-986): test mode
skips the call; otherwise status 200 succeeds, a `RequestException`
(including `raise_for_status` on 4xx/5xx) is the unreachable error, and any
other status is the API-error branch. -/
def actuatorVerdict (cfg : Config) (act : ActuatorOutcome) (user : List Char) : Verdict :=
  if cfg.test_mode then .successTest user
  else
    match act with
    | .exc => .haUnreachable
    | .status n =>
        if 400 ≤ n then .haUnreachable
        else if n = 200 then .successOpen user
        else .haApiError n user

/-- State update and response of the failed-guess branch (app.py:987-1033):
increment all three counters, then session-block, IP-block or
progressive-delay by precedence, and report `blocked_until` when a block is
now active. -/
def failedGuessStep (cfg : Config) (now : Nat) (rl : RLState) (sess : SessionData)
    (session_id identifier : List Char) : OutDoor :=
  let rl1 : RLState :=
    { rl with
      ip_failed_attempts := upd rl.ip_failed_attempts identifier
        (rl.ip_failed_attempts identifier + 1),
      session_failed_attempts := upd rl.session_failed_attempts session_id
        (rl.session_failed_attempts session_id + 1),
      global_failed_attempts := rl.global_failed_attempts + 1 }
  let sessCount := rl1.session_failed_attempts session_id
  let ipCount := rl1.ip_failed_attempts identifier
  let step : RLState × SessionData × FailReason × Nat :=
    if cfg.SESSION_MAX_ATTEMPTS ≤ sessCount then
      let sb := upd rl1.session_blocked_until session_id (some (now + cfg.BLOCK_TIME))
      ({ rl1 with session_blocked_until := sb },
        { sess with blocked_until_ts := some (now + cfg.BLOCK_TIME) },
        .sessionBlockedNew, 0)
    else if cfg.MAX_ATTEMPTS ≤ ipCount then
      let ib := upd rl1.ip_blocked_until identifier (some (now + cfg.BLOCK_TIME))
      ({ rl1 with ip_blocked_until := ib }, sess, .ipBlockedNew, 0)
    else
      (rl1, sess,
        .remaining (min ((cfg.SESSION_MAX_ATTEMPTS : Int) - (sessCount : Int))
          ((cfg.MAX_ATTEMPTS : Int) - (ipCount : Int))),
        get_delay_seconds sessCount)
  let rl2 := step.1
  let bu : Option Nat :=
    if memActive (rl2.session_blocked_until session_id) now then
      some (((rl2.session_blocked_until session_id)).getD 0)
    else if memActive (rl2.ip_blocked_until identifier) now then
      some (((rl2.ip_blocked_until identifier)).getD 0)
    else none
  ⟨.authFailure step.2.2.1 bu, rl2, step.2.1, false, step.2.2.2⟩

/-- The composite per-IP key this request is tracked under. -/
def reqId (cfg : Config) (req : Request) : List Char :=
  get_client_identifier cfg.pyHash req.remote_addr req.user_agent req.accept_language

/-- Truthiness of the configured OIDC user-group restriction and membership
(app.py:617): `(not oidc_user_group) or (oidc_user_group in oidc_groups)`. -/
def oidc_user_allowed_check (cfg : Config) (sess : SessionData) : Bool :=
  cfg.oidc_user_group.isEmpty || sess.oidc_groups.contains cfg.oidc_user_group

/-- The federated half of the no-pin guard (app.py:623-628): an effective
(unexpired) authorized federated session with policy not demanding a pin.
Group membership is read from the session after the expiry check, as the
source does. -/
def oidcBypassAvail (cfg : Config) (now : Nat) (sess : SessionData) : Bool :=
  (oidc_expiry_check cfg now sess).1 &&
    oidc_user_allowed_check cfg (oidc_expiry_check cfg now sess).2 &&
    !cfg.require_pin_for_oidc

/-- The pin this request carries: `data.get("pin") if data else None`. -/
def pinFromRequest (req : Request) : PyVal :=
  match req.body with
  | none => .pyNone
  | some p => p.getD .pyNone

/-- Whether the body is a JSON object containing a pin key
(`not data or "pin" not in data` is its negation). -/
def pinKeyPresent (req : Request) : Bool :=
  match req.body with
  | some (some _) => true
  | _ => false

/-- The authentication phase of `open_door` (app.py:597-1033): everything
after the suspicious, global and block pre-checks have passed, from the
federated-session expiry re-check to the terminal response. -/
def authPhase (cfg : Config) (req : Request) (session_id : List Char) (now : Nat)
    (rl : RLState) (sess : SessionData) (act : ActuatorOutcome) : OutDoor :=
  let identifier := reqId cfg req
  let bypass := oidcBypassAvail cfg now sess
  let sess := (oidc_expiry_check cfg now sess).2
  let pin_from_request := pinFromRequest req
  if !pin_from_request.truthy && bypass then
    if recheckBlocked rl session_id identifier now then
      ⟨.blockEnforced (recheckBlockedUntil rl session_id identifier now), rl, sess,
        false, 0⟩
    else
      let matched_user := (sess.oidc_user).getD (String.toList "oidc-user")
      let rl := oidcSuccessReset rl session_id identifier now
      ⟨actuatorVerdict cfg act matched_user, rl, sess, !cfg.test_mode, 0⟩
  else if !pinKeyPresent req then ⟨.pinRequired, rl, sess, false, 0⟩
  else
    let v := validate_pin_input pin_from_request
    if !v.1 then
      ⟨.invalidFormat,
        { rl with
          ip_failed_attempts := upd rl.ip_failed_attempts identifier
            (rl.ip_failed_attempts identifier + 1),
          session_failed_attempts := upd rl.session_failed_attempts session_id
            (rl.session_failed_attempts session_id + 1),
          global_failed_attempts := rl.global_failed_attempts + 1 },
        sess, false, 0⟩
    else
      let pin := v.2.getD []
      match matchPin cfg.users pin with
      | some matched_user =>
          if recheckBlocked rl session_id identifier now then
            ⟨.blockEnforced (recheckBlockedUntil rl session_id identifier now), rl,
              sess, false, 0⟩
          else
            let rl : RLState :=
              { rl with
                ip_failed_attempts := upd rl.ip_failed_attempts identifier 0,
                session_failed_attempts := upd rl.session_failed_attempts session_id 0,
                ip_blocked_until := upd rl.ip_blocked_until identifier none,
                session_blocked_until := upd rl.session_blocked_until session_id none }
            let sess := { sess with blocked_until_ts := none }
            ⟨actuatorVerdict cfg act matched_user, rl, sess, !cfg.test_mode, 0⟩
      | none => failedGuessStep cfg now rl sess session_id identifier

/-- Embedding of the `/open-door` handler `open_door` (app.py:481-1051),
from the suspicious-request gate to the terminal response of this request.
`session_id` is the caller's (possibly fresh) session identity, `now` the
instant of every clock read in the request, `act` the oracle for the
outbound actuator call. -/
def open_door (cfg : Config) (req : Request) (session_id : List Char) (now : Nat)
    (rl : RLState) (sess : SessionData) (act : ActuatorOutcome) : OutDoor :=
  let identifier := reqId cfg req
  if is_request_suspicious req.user_agent then ⟨.suspiciousBlocked, rl, sess, false, 0⟩
  else
    let gc := check_global_rate_limit cfg now rl
    let rl := gc.2
    if !gc.1 then ⟨.globalLimited, rl, sess, false, 0⟩
    else if persActive sess.blocked_until_ts now then
      ⟨.sessionBlockedPersisted (sess.blocked_until_ts.getD 0), rl, sess, false, 0⟩
    else if memActive (rl.session_blocked_until session_id) now then
      ⟨.sessionBlockedMemory (((rl.session_blocked_until session_id)).getD 0), rl, sess,
        false, 0⟩
    else if memActive (rl.ip_blocked_until identifier) now then
      ⟨.ipBlockedMemory (((rl.ip_blocked_until identifier)).getD 0), rl, sess, false, 0⟩
    else authPhase cfg req session_id now rl sess act

/-- Verdicts answered as HTTP 429 with the "too many attempts" family of
messages: the caller is being told it is blocked or rate-limited. -/
def isRateLimited : Verdict → Bool
  | .globalLimited => true
  | .sessionBlockedPersisted _ => true
  | .sessionBlockedMemory _ => true
  | .ipBlockedMemory _ => true
  | .blockEnforced _ => true
  | _ => false

/-- Verdicts produced by a positive block check (the pre-checks or the
in-request re-check), excluding the global budget. -/
def isBlockedVerdict : Verdict → Bool
  | .sessionBlockedPersisted _ => true
  | .sessionBlockedMemory _ => true
  | .ipBlockedMemory _ => true
  | .blockEnforced _ => true
  | _ => false

/-- The `blocked_until` value a blocked response reports to the caller. -/
def reportedBlockedUntil : Verdict → Option Nat
  | .sessionBlockedPersisted ts => some ts
  | .sessionBlockedMemory ts => some ts
  | .ipBlockedMemory ts => some ts
  | .blockEnforced bu => bu
  | _ => none

/-- Value of a decimal digit string, used to invert `decimalRepr`. -/
def decimalVal (l : List Char) : Nat :=
  l.foldl (fun a c => 10 * a + (c.toNat - 48)) 0

/-- A fresh rate-limit state: no failures recorded, no blocks, the global
window opened at `t0`. -/
def freshRL (t0 : Nat) : RLState :=
  { ip_failed_attempts := fun _ => 0, ip_blocked_until := fun _ => none,
    session_failed_attempts := fun _ => 0, session_blocked_until := fun _ => none,
    global_failed_attempts := 0, global_last_reset := t0 }

/-- Rate-limit state in the middle of a same-caller failure streak: `i`
failures recorded against the session key and the composite IP key, `i`
global failures, no blocks. -/
def midRL (t0 i : Nat) (session_id identifier : List Char) : RLState :=
  { ip_failed_attempts := upd (fun _ => 0) identifier i,
    ip_blocked_until := fun _ => none,
    session_failed_attempts := upd (fun _ => 0) session_id i,
    session_blocked_until := fun _ => none,
    global_failed_attempts := i, global_last_reset := t0 }

/-- Threading of several `/open-door` attempts (same caller, same request
body) through the rate-limit and session state, one clock instant per
attempt. -/
def run_attempts (cfg : Config) (req : Request) (session_id : List Char)
    (act : ActuatorOutcome) : List Nat → RLState × SessionData → RLState × SessionData
  | [], st => st
  | t :: ts, st =>
      let o := open_door cfg req session_id t st.1 st.2 act
      run_attempts cfg req session_id act ts (o.rl, o.sess)

/-! Concrete fixtures used by the witnesses and counterexamples. -/

/-- A plausible browser User-Agent that passes the suspicious-request gate. -/
def exUA : List Char := String.toList "Mozilla Gecko Firefox"

/-- Baseline configuration: the documented defaults (`MAX_ATTEMPTS = 5`,
`BLOCK_TIME` = 5 minutes, global budget 50, `SESSION_MAX_ATTEMPTS = 3`),
OIDC off, test mode on, one user, a constant stand-in hash. -/
def exCfg : Config :=
  { MAX_ATTEMPTS := 5, BLOCK_TIME := 300, MAX_GLOBAL_ATTEMPTS_PER_HOUR := 50,
    SESSION_MAX_ATTEMPTS := 3, oauthEnabled := false, require_pin_for_oidc := false,
    test_mode := true, oidc_user_group := [],
    users := [(String.toList "alice", String.toList "1234")],
    pyHash := fun _ => 0 }

/-- Baseline configuration with OIDC enabled and no group restriction. -/
def exCfgOidc : Config := { exCfg with oauthEnabled := true }

/-- A request from ip 1.2.3.4 carrying the given pin field. -/
def exReq (p : Option (Option PyVal)) : Request :=
  { remote_addr := String.toList "1.2.3.4", user_agent := exUA,
    accept_language := String.toList "en-US", body := p }

/-- The session key used by the fixtures. -/
def exSid : List Char := String.toList "deadbeef"

/-- A session cookie with no block mirror and no federated session. -/
def exSess : SessionData :=
  { blocked_until_ts := none, oidc_authenticated := false, oidc_user := none,
    oidc_groups := [], oidc_exp := none }

/-- The composite key of the fixture requests under the stand-in hash:
"1.2.3.4:0". -/
def exId : List Char := String.toList "1.2.3.4:0"

/-- Rate-limit state whose only entry is an in-memory IP block until 100 on
the fixture key. -/
def exRlIp100 : RLState :=
  { freshRL 0 with ip_blocked_until := upd (fun _ => none) exId (some 100) }

/-- Session cookie whose persisted block mirror expires at 50. -/
def exSessPers50 : SessionData := { exSess with blocked_until_ts := some 50 }

/-- A currently-valid authorized federated session (exp 1000) carrying a
stale, expired persisted block mirror from an earlier lockout (5). -/
def exSessOidc : SessionData :=
  { blocked_until_ts := some 5, oidc_authenticated := true,
    oidc_user := some (String.toList "kim"), oidc_groups := [],
    oidc_exp := some 1000 }

/-- A federated session whose stored exp (5) has already passed. -/
def exSessOidcExpired : SessionData :=
  { blocked_until_ts := none, oidc_authenticated := true,
    oidc_user := some (String.toList "kim"),
    oidc_groups := [String.toList "door"], oidc_exp := some 5 }

/-- Rate-limit state with prior failures on the fixture caller: 2 on the
composite IP key, 2 on the session key, 7 global. -/
def exRlCounters : RLState :=
  { freshRL 0 with
    ip_failed_attempts := upd (fun _ => 0) exId 2,
    session_failed_attempts := upd (fun _ => 0) exSid 2,
    global_failed_attempts := 7 }

/-- A fixture request carrying the wrong pin "9999". -/
def exReq9999 : Request := exReq (some (some (.str (String.toList "9999"))))

/-- A fixture request carrying the malformed pin "12a4". -/
def exReq12a4 : Request := exReq (some (some (.str (String.toList "12a4"))))

/-- Fourteen-character binary tags: more than 10000 pairwise distinct
User-Agent strings, all short enough to survive the 100-character
truncation. -/
def binEncode (i : Nat) : List Char :=
  (List.range 14).map (fun j => if i.testBit j then 'a' else 'b')

/-! Claim theorems. -/

/-- C6: the progressive delay is `min(2^(attemptCount-1), 16)` seconds for
every positive attempt count and `0` at zero; in particular it yields
1, 2, 4, 8, 16, 16, 16, ... for counts 1, 2, 3, 4, 5, 6, 7, ... and stays
capped at 16 from the fifth attempt on. -/
theorem progressive_delay_spec :
    (∀ n : Nat, 0 < n → get_delay_seconds n = min (2 ^ (n - 1)) 16) ∧
      get_delay_seconds 0 = 0 ∧
      [1, 2, 3, 4, 5, 6, 7].map get_delay_seconds = [1, 2, 4, 8, 16, 16, 16] ∧
      (∀ n : Nat, 5 ≤ n → get_delay_seconds n = 16) := by
  refine ⟨fun n hn => ?_, rfl, by decide, fun n hn => ?_⟩
  · simp [get_delay_seconds, hn]
  · have h16 : (16 : Nat) ≤ 2 ^ (n - 1) := by
      calc (16 : Nat) = 2 ^ 4 := by norm_num
      _ ≤ 2 ^ (n - 1) := Nat.pow_le_pow_right (by norm_num) (by omega)
    have hpos : 0 < n := by omega
    simp [get_delay_seconds, hpos, Nat.min_eq_right h16]

/-- Witness for C6: the delay formula and the cap evaluated at concrete
attempt counts. -/
theorem progressive_delay_spec_witness :
    get_delay_seconds 3 = min (2 ^ (3 - 1)) 16 ∧ get_delay_seconds 9 = 16 :=
  ⟨progressive_delay_spec.1 3 (by decide), progressive_delay_spec.2.2.2 9 (by decide)⟩

/-- C7: pin format validation accepts exactly the all-digit strings of
length 4 to 8, returning the pin unchanged, and rejects every other value
(integers and `None` included); in particular "1234" is valid while
"12a4", "123" and the number 123 are not. -/
theorem validate_pin_format_spec :
    (∀ s : List Char, validate_pin_input (.str s) =
      if s.all Char.isDigit ∧ 4 ≤ s.length ∧ s.length ≤ 8 then (true, some s)
      else (false, none)) ∧
      (∀ n : Int, validate_pin_input (.int n) = (false, none)) ∧
      validate_pin_input .pyNone = (false, none) ∧
      validate_pin_input (.str (String.toList "1234")) =
        (true, some (String.toList "1234")) ∧
      validate_pin_input (.str (String.toList "12a4")) = (false, none) ∧
      validate_pin_input (.str (String.toList "123")) = (false, none) ∧
      validate_pin_input (.int 123) = (false, none) := by
  refine ⟨fun s => ?_, fun n => rfl, rfl, by decide, by decide, by decide, rfl⟩
  unfold validate_pin_input
  by_cases h4 : 4 ≤ s.length
  · have hne : s.isEmpty = false := by
      rcases s with _ | ⟨a, l⟩
      · simp at h4
      · rfl
    by_cases hd : s.all Char.isDigit <;> by_cases h8 : s.length ≤ 8 <;>
      simp [pyIsdigit, hne, hd, h4, h8]
  · have hno : ¬(s.all Char.isDigit ∧ 4 ≤ s.length ∧ s.length ≤ 8) :=
      fun h => h4 h.2.1
    rw [if_neg hno]
    by_cases hd : s.all Char.isDigit <;> simp [pyIsdigit, hd, h4]

/-! Decimal representation and hash-bucket facts for the composite client
identifier. -/

/-- The digit characters printed by `decimalRepr` decode back to their
values. -/
lemma digitChar_toNat : ∀ k : Nat, k < 10 → (Nat.digitChar k).toNat = 48 + k := by
  decide

/-- With enough fuel, the printed digits run through the fuel levels
consistently: folding the decoder over them recovers the number. -/
lemma decimalReprAux_foldl : ∀ (fuel n : Nat), n < fuel → ∀ a : Nat,
    List.foldl (fun a c => 10 * a + (c.toNat - 48)) a (decimalReprAux fuel n) =
      a * 10 ^ (decimalReprAux fuel n).length + n := by
  intro fuel
  induction fuel with
  | zero => intro n hn; omega
  | succ fuel ih =>
      intro n hn a
      have hstep : decimalReprAux (fuel + 1) n =
          if n < 10 then [Nat.digitChar n]
          else decimalReprAux fuel (n / 10) ++ [Nat.digitChar (n % 10)] := rfl
      rw [hstep]
      by_cases h : n < 10
      · rw [if_pos h]
        simp only [List.foldl_cons, List.foldl_nil, List.length_cons, List.length_nil,
          digitChar_toNat n h, pow_one, Nat.zero_add]
        omega
      · rw [if_neg h]
        have hrec : n / 10 < fuel := by
          have h1 : n / 10 < n := Nat.div_lt_self (by omega) (by omega)
          omega
        rw [List.foldl_append]
        simp only [List.foldl_cons, List.foldl_nil]
        rw [ih (n / 10) hrec, digitChar_toNat (n % 10) (Nat.mod_lt n (by omega))]
        simp only [List.length_append, List.length_cons, List.length_nil, Nat.zero_add]
        rw [pow_succ, ← mul_assoc]
        generalize (10 : Nat) ^ (decimalReprAux fuel (n / 10)).length = P
        generalize a * P = Q
        omega

/-- Decoding inverts `decimalRepr`. -/
lemma decimalVal_decimalRepr (n : Nat) : decimalVal (decimalRepr n) = n := by
  simpa [decimalVal, decimalRepr] using decimalReprAux_foldl (n + 1) n (by omega) 0

/-- Decimal representations of distinct numbers differ. -/
lemma decimalRepr_injective : Function.Injective decimalRepr := by
  intro m n h
  have hm := decimalVal_decimalRepr m
  rw [h, decimalVal_decimalRepr] at hm
  exact hm.symm

/-- The hash bucket is always below the modulus. -/
lemma uaBucket_lt (h : List Char → Int) (ua al : List Char) : uaBucket h ua al < 10000 := by
  unfold uaBucket
  have h1 : (0 : Int) ≤ (h (ua.take 100 ++ al.take 50)).emod 10000 :=
    Int.emod_nonneg _ (by norm_num)
  have h2 : (h (ua.take 100 ++ al.take 50)).emod 10000 < 10000 :=
    Int.emod_lt_of_pos _ (by norm_num)
  omega

/-- The binary tags are pairwise distinct below 2^14. -/
lemma binEncode_inj {i j : Nat} (hi : i < 16384) (hj : j < 16384)
    (h : binEncode i = binEncode j) : i = j := by
  apply Nat.eq_of_testBit_eq
  intro k
  by_cases hk : k < 14
  · have h' := List.map_inj_left.mp h k (List.mem_range.mpr hk)
    revert h'
    cases hbi : i.testBit k <;> cases hbj : j.testBit k <;> intro h' <;>
      first
        | rfl
        | exact absurd h' (by decide)
  · have h14 : (16384 : Nat) ≤ 2 ^ k := by
      calc (16384 : Nat) = 2 ^ 14 := by norm_num
      _ ≤ 2 ^ k := Nat.pow_le_pow_right (by norm_num) (by omega)
    rw [Nat.testBit_eq_false_of_lt (lt_of_lt_of_le hi h14),
      Nat.testBit_eq_false_of_lt (lt_of_lt_of_le hj h14)]

/-- Pigeonhole over the 10000 hash buckets: whatever the process hash is,
some two distinct User-Agent values from the same IP share a composite
identifier. -/
lemma exists_identifier_collision (h : List Char → Int) (ip al : List Char) :
    ∃ ua1 ua2 : List Char, ua1 ≠ ua2 ∧
      get_client_identifier h ip ua1 al = get_client_identifier h ip ua2 al := by
  obtain ⟨i, j, hne, he⟩ := Fintype.exists_ne_map_eq_of_card_lt
    (fun i : Fin 10001 => (⟨uaBucket h (binEncode i.val) al, uaBucket_lt h _ al⟩ : Fin 10000))
    (by simp only [Fintype.card_fin]; omega)
  refine ⟨binEncode i.val, binEncode j.val, ?_, ?_⟩
  · intro hEq
    exact hne (Fin.ext (binEncode_inj (by omega) (by omega) hEq))
  · unfold get_client_identifier
    have hb : uaBucket h (binEncode i.val) al = uaBucket h (binEncode j.val) al :=
      congrArg Fin.val he
    rw [hb]

/-- Two composite identifiers with the same IP agree exactly when their
hash buckets agree. -/
lemma get_client_identifier_eq_iff (h : List Char → Int) (ip ua1 al1 ua2 al2 : List Char) :
    get_client_identifier h ip ua1 al1 = get_client_identifier h ip ua2 al2 ↔
      uaBucket h ua1 al1 = uaBucket h ua2 al2 := by
  constructor
  · intro e
    unfold get_client_identifier at e
    have e2 := List.append_cancel_left e
    injection e2 with _ e3
    exact decimalRepr_injective e3
  · intro e
    unfold get_client_identifier
    rw [e]

/-- C9 counterexample: it is not the case that any two requests from the
same IP with different User-Agent values are tracked under distinct
composite keys — the key folds the header hash modulo 10000, so distinct
headers can share a key. -/
theorem client_identifier_distinct_counterexample :
    ¬ (∀ (h : List Char → Int) (ip al ua1 ua2 : List Char), ua1 ≠ ua2 →
      get_client_identifier h ip ua1 al ≠ get_client_identifier h ip ua2 al) := by
  intro hcl
  obtain ⟨ua1, ua2, hne, he⟩ := exists_identifier_collision (fun _ => 0) [] []
  exact hcl _ _ _ ua1 ua2 hne he

/-- C9 amended: the per-IP key is the composite identifier
`ip:hash(userAgent+acceptLanguage) % 10000` — never the bare IP — and two
requests from the same IP fall under the same key exactly when their
truncated headers hash to the same bucket modulo 10000; for every hash
function there exist two distinct User-Agent values from the same IP that
share a key. -/
theorem client_identifier_composite_key :
    (∀ (h : List Char → Int) (ip ua al : List Char),
      get_client_identifier h ip ua al ≠ ip) ∧
    (∀ (h : List Char → Int) (ip ua1 al1 ua2 al2 : List Char),
      get_client_identifier h ip ua1 al1 = get_client_identifier h ip ua2 al2 ↔
        uaBucket h ua1 al1 = uaBucket h ua2 al2) ∧
    (∀ (h : List Char → Int) (ip al : List Char), ∃ ua1 ua2 : List Char,
      ua1 ≠ ua2 ∧ get_client_identifier h ip ua1 al = get_client_identifier h ip ua2 al) := by
  refine ⟨fun h ip ua al e => ?_, get_client_identifier_eq_iff, exists_identifier_collision⟩
  have := congrArg List.length e
  simp [get_client_identifier] at this

/-- C1: while any block (persisted session mirror, in-memory session, or
in-memory IP) is active at decision time, a non-suspicious request — with a
correct PIN or a valid federated session or anything else — is answered as
rate-limited: no block is cleared, no failure counter changes, no delay is
slept and the actuator is never invoked.  The hourly global window is
assumed not to have elapsed, so the window bookkeeping does not rewrite the
global counter either. -/
theorem block_precedence (cfg : Config) (req : Request) (session_id : List Char)
    (now : Nat) (rl : RLState) (sess : SessionData) (act : ActuatorOutcome)
    (hsusp : is_request_suspicious req.user_agent = false)
    (hwin : now - rl.global_last_reset ≤ 3600)
    (hblock : persActive sess.blocked_until_ts now = true ∨
      memActive (rl.session_blocked_until session_id) now = true ∨
      memActive (rl.ip_blocked_until (reqId cfg req)) now = true) :
    isRateLimited (open_door cfg req session_id now rl sess act).verdict = true ∧
      (open_door cfg req session_id now rl sess act).rl = rl ∧
      (open_door cfg req session_id now rl sess act).sess = sess ∧
      (open_door cfg req session_id now rl sess act).actuatorCalled = false ∧
      (open_door cfg req session_id now rl sess act).delayApplied = 0 := by
  have hwin' : ¬ now - rl.global_last_reset > 3600 := by omega
  unfold open_door check_global_rate_limit
  rw [hsusp]
  simp only [if_neg hwin', Bool.if_false_left, Bool.not_eq_true']
  by_cases hg : decide (rl.global_failed_attempts < cfg.MAX_GLOBAL_ATTEMPTS_PER_HOUR) = true
  · simp only [hg, Bool.not_true, if_false]
    rcases hblock with hb | hb | hb
    · simp [hb, isRateLimited]
    · by_cases hp : persActive sess.blocked_until_ts now = true
      · simp [hp, isRateLimited]
      · simp only [Bool.not_eq_true] at hp
        simp [hp, hb, isRateLimited]
    · by_cases hp : persActive sess.blocked_until_ts now = true
      · simp [hp, isRateLimited]
      · simp only [Bool.not_eq_true] at hp
        by_cases hs : memActive (rl.session_blocked_until session_id) now = true
        · simp [hp, hs, isRateLimited]
        · simp only [Bool.not_eq_true] at hs
          simp [hp, hs, hb, isRateLimited]
  · simp only [Bool.not_eq_true] at hg
    simp [hg, isRateLimited]

/-- Witness for C1: a caller with an active persisted session block and the
correct PIN "1234" is answered as rate-limited with every piece of state
unchanged. -/
theorem block_precedence_witness :
    isRateLimited (open_door exCfg (exReq (some (some (.str (String.toList "1234")))))
        exSid 100 (freshRL 0) { exSess with blocked_until_ts := some 400 } .exc).verdict =
      true ∧
      (open_door exCfg (exReq (some (some (.str (String.toList "1234")))))
        exSid 100 (freshRL 0) { exSess with blocked_until_ts := some 400 } .exc).rl =
        freshRL 0 ∧
      (open_door exCfg (exReq (some (some (.str (String.toList "1234")))))
        exSid 100 (freshRL 0) { exSess with blocked_until_ts := some 400 } .exc).sess =
        { exSess with blocked_until_ts := some 400 } ∧
      (open_door exCfg (exReq (some (some (.str (String.toList "1234")))))
        exSid 100 (freshRL 0) { exSess with blocked_until_ts := some 400 } .exc).actuatorCalled =
        false ∧
      (open_door exCfg (exReq (some (some (.str (String.toList "1234")))))
        exSid 100 (freshRL 0) { exSess with blocked_until_ts := some 400 } .exc).delayApplied =
        0 :=
  block_precedence exCfg (exReq (some (some (.str (String.toList "1234"))))) exSid 100
    (freshRL 0) { exSess with blocked_until_ts := some 400 } .exc (by decide)
    (by decide) (Or.inl (by decide))

/-- The actuator phase never answers with a blocked verdict. -/
lemma isBlockedVerdict_actuatorVerdict (cfg : Config) (act : ActuatorOutcome)
    (u : List Char) : isBlockedVerdict (actuatorVerdict cfg act u) = false := by
  unfold actuatorVerdict
  by_cases ht : cfg.test_mode
  · simp [ht, isBlockedVerdict]
  · cases act with
    | exc => simp [ht, isBlockedVerdict]
    | status n =>
        by_cases h4 : 400 ≤ n <;> by_cases h2 : n = 200 <;>
          simp [ht, h4, h2, isBlockedVerdict]

/-- The failed-guess branch always answers with the 401 auth failure. -/
lemma isBlockedVerdict_failedGuess (cfg : Config) (now : Nat) (rl : RLState)
    (sess : SessionData) (sid id : List Char) :
    isBlockedVerdict (failedGuessStep cfg now rl sess sid id).verdict = false := rfl

/-- When the suspicious, global and block pre-checks all pass (and the
hourly window has not elapsed), `open_door` is exactly its authentication
phase. -/
lemma open_door_eq_authPhase (cfg : Config) (req : Request) (session_id : List Char)
    (now : Nat) (rl : RLState) (sess : SessionData) (act : ActuatorOutcome)
    (hsusp : is_request_suspicious req.user_agent = false)
    (hwin : now - rl.global_last_reset ≤ 3600)
    (hglob : rl.global_failed_attempts < cfg.MAX_GLOBAL_ATTEMPTS_PER_HOUR)
    (hp : persActive sess.blocked_until_ts now = false)
    (hs : memActive (rl.session_blocked_until session_id) now = false)
    (hi : memActive (rl.ip_blocked_until (reqId cfg req)) now = false) :
    open_door cfg req session_id now rl sess act =
      authPhase cfg req session_id now rl sess act := by
  have hwin' : ¬ now - rl.global_last_reset > 3600 := by omega
  unfold open_door check_global_rate_limit
  rw [hsusp]
  simp [if_neg hwin', hglob, hp, hs, hi]

/-- With both in-memory blocks inactive, the authentication phase never
answers with a blocked verdict. -/
lemma authPhase_not_blocked (cfg : Config) (req : Request) (session_id : List Char)
    (now : Nat) (rl : RLState) (sess : SessionData) (act : ActuatorOutcome)
    (hs : memActive (rl.session_blocked_until session_id) now = false)
    (hi : memActive (rl.ip_blocked_until (reqId cfg req)) now = false) :
    isBlockedVerdict (authPhase cfg req session_id now rl sess act).verdict = false := by
  have hrc : recheckBlocked rl session_id (reqId cfg req) now = false := by
    unfold recheckBlocked
    rw [hs, hi]
    rfl
  unfold authPhase
  by_cases hA : (!(pinFromRequest req).truthy && oidcBypassAvail cfg now sess) = true
  · simp [hA, hrc, isBlockedVerdict_actuatorVerdict]
  · rw [Bool.not_eq_true] at hA
    by_cases hK : pinKeyPresent req
    · by_cases hv : (validate_pin_input (pinFromRequest req)).1
      · cases hm : matchPin cfg.users ((validate_pin_input (pinFromRequest req)).2.getD [])
        · simp [hA, hK, hv, hm, isBlockedVerdict_failedGuess]
        · simp [hA, hK, hv, hm, hrc, isBlockedVerdict_actuatorVerdict]
      · simp only [Bool.not_eq_true] at hv
        simp [hA, hK, hv, isBlockedVerdict]
    · simp only [Bool.not_eq_true] at hK
      simp [hA, hK, isBlockedVerdict]

/-- C2 counterexample: with the persisted session mirror active until 50
and an in-memory IP block active until 100, the handler reports
`blocked_until = 50` — the first source checked — not the maximum 100, so
the reported timestamp is not the latest-expiring active block. -/
theorem blocked_check_max_counterexample :
    (open_door exCfg (exReq (some (some (.str (String.toList "1234"))))) exSid 10
        exRlIp100 exSessPers50 .exc).verdict = .sessionBlockedPersisted 50 ∧
      memActive (exRlIp100.ip_blocked_until
        (reqId exCfg (exReq (some (some (.str (String.toList "1234"))))))) 10 = true ∧
      reportedBlockedUntil (.sessionBlockedPersisted 50) = some 50 ∧
      (50 : Nat) < 100 := by
  refine ⟨by decide, by decide, rfl, by decide⟩

/-- C2 amended: a caller is blocked iff any of the three sources (persisted
mirror, in-memory session, in-memory IP) has `now < blockedUntil`; the
reported `blocked_until`, however, is that of the first active source in
check order — persisted mirror, then in-memory session, then in-memory
IP — not the maximum over active sources. -/
theorem blocked_check_first_source (cfg : Config) (req : Request) (session_id : List Char)
    (now : Nat) (rl : RLState) (sess : SessionData) (act : ActuatorOutcome)
    (hsusp : is_request_suspicious req.user_agent = false)
    (hwin : now - rl.global_last_reset ≤ 3600)
    (hglob : rl.global_failed_attempts < cfg.MAX_GLOBAL_ATTEMPTS_PER_HOUR) :
    (isBlockedVerdict (open_door cfg req session_id now rl sess act).verdict =
      (persActive sess.blocked_until_ts now ||
        memActive (rl.session_blocked_until session_id) now ||
        memActive (rl.ip_blocked_until (reqId cfg req)) now)) ∧
      (persActive sess.blocked_until_ts now = true →
        (open_door cfg req session_id now rl sess act).verdict =
          .sessionBlockedPersisted (sess.blocked_until_ts.getD 0)) ∧
      (persActive sess.blocked_until_ts now = false →
        memActive (rl.session_blocked_until session_id) now = true →
        (open_door cfg req session_id now rl sess act).verdict =
          .sessionBlockedMemory ((rl.session_blocked_until session_id).getD 0)) ∧
      (persActive sess.blocked_until_ts now = false →
        memActive (rl.session_blocked_until session_id) now = false →
        memActive (rl.ip_blocked_until (reqId cfg req)) now = true →
        (open_door cfg req session_id now rl sess act).verdict =
          .ipBlockedMemory ((rl.ip_blocked_until (reqId cfg req)).getD 0)) := by
  have hwin' : ¬ now - rl.global_last_reset > 3600 := by omega
  refine ⟨?_, fun hp => ?_, fun hp hs => ?_, fun hp hs hi => ?_⟩
  · by_cases hp : persActive sess.blocked_until_ts now = true
    · unfold open_door check_global_rate_limit
      rw [hsusp]
      simp [if_neg hwin', hglob, hp, isBlockedVerdict]
    · rw [Bool.not_eq_true] at hp
      by_cases hs : memActive (rl.session_blocked_until session_id) now = true
      · unfold open_door check_global_rate_limit
        rw [hsusp]
        simp [if_neg hwin', hglob, hp, hs, isBlockedVerdict]
      · rw [Bool.not_eq_true] at hs
        by_cases hi : memActive (rl.ip_blocked_until (reqId cfg req)) now = true
        · unfold open_door check_global_rate_limit
          rw [hsusp]
          simp [if_neg hwin', hglob, hp, hs, hi, isBlockedVerdict]
        · rw [Bool.not_eq_true] at hi
          rw [open_door_eq_authPhase cfg req session_id now rl sess act hsusp hwin
            hglob hp hs hi]
          rw [authPhase_not_blocked cfg req session_id now rl sess act hs hi]
          simp [hp, hs, hi]
  · unfold open_door check_global_rate_limit
    rw [hsusp]
    simp [if_neg hwin', hglob, hp]
  · unfold open_door check_global_rate_limit
    rw [hsusp]
    simp [if_neg hwin', hglob, hp, hs]
  · unfold open_door check_global_rate_limit
    rw [hsusp]
    simp [if_neg hwin', hglob, hp, hs, hi]

/-- Witness for the amended C2: with only the in-memory IP block active
(until 100), the verdict is blocked and reports the IP block's own
timestamp. -/
theorem blocked_check_first_source_witness :
    isBlockedVerdict (open_door exCfg (exReq (some (some (.str (String.toList "1234")))))
        exSid 10 exRlIp100 exSess .exc).verdict =
      (persActive exSess.blocked_until_ts 10 ||
        memActive (exRlIp100.session_blocked_until exSid) 10 ||
        memActive (exRlIp100.ip_blocked_until
          (reqId exCfg (exReq (some (some (.str (String.toList "1234"))))))) 10) ∧
      (open_door exCfg (exReq (some (some (.str (String.toList "1234"))))) exSid 10
          exRlIp100 exSess .exc).verdict =
        .ipBlockedMemory ((exRlIp100.ip_blocked_until
          (reqId exCfg (exReq (some (some (.str (String.toList "1234"))))))).getD 0) := by
  have h := blocked_check_first_source exCfg (exReq (some (some (.str (String.toList "1234")))))
    exSid 10 exRlIp100 exSess .exc (by decide) (by decide) (by decide)
  exact ⟨h.1, h.2.2.2 (by decide) (by decide) (by decide)⟩

/-- C8: a request whose federated session has a missing or passed stored
exp (with the pre-checks passing and no pin supplied) has all four
federated session keys cleared in place and is answered "PIN required",
with the rate-limit state untouched and no actuator call. -/
theorem oidc_expiry_invalidates (cfg : Config) (req : Request) (session_id : List Char)
    (now : Nat) (rl : RLState) (sess : SessionData) (act : ActuatorOutcome)
    (hsusp : is_request_suspicious req.user_agent = false)
    (hwin : now - rl.global_last_reset ≤ 3600)
    (hglob : rl.global_failed_attempts < cfg.MAX_GLOBAL_ATTEMPTS_PER_HOUR)
    (hp : persActive sess.blocked_until_ts now = false)
    (hs : memActive (rl.session_blocked_until session_id) now = false)
    (hi : memActive (rl.ip_blocked_until (reqId cfg req)) now = false)
    (hoauth : cfg.oauthEnabled = true)
    (hauth : sess.oidc_authenticated = true)
    (hexp : sess.oidc_exp = none ∨ ∃ e, sess.oidc_exp = some e ∧ (e = 0 ∨ e < now))
    (hnopin : pinKeyPresent req = false) :
    (open_door cfg req session_id now rl sess act).sess.oidc_authenticated = false ∧
      (open_door cfg req session_id now rl sess act).sess.oidc_user = none ∧
      (open_door cfg req session_id now rl sess act).sess.oidc_groups = [] ∧
      (open_door cfg req session_id now rl sess act).sess.oidc_exp = none ∧
      (open_door cfg req session_id now rl sess act).verdict = .pinRequired ∧
      (open_door cfg req session_id now rl sess act).rl = rl ∧
      (open_door cfg req session_id now rl sess act).actuatorCalled = false := by
  rw [open_door_eq_authPhase cfg req session_id now rl sess act hsusp hwin hglob hp hs hi]
  have hexp' : (match sess.oidc_exp with
      | none => true
      | some e => e == 0 || decide (e < now)) = true := by
    rcases hexp with he | ⟨e, he, hor⟩
    · rw [he]
    · rw [he]
      rcases hor with h0 | hlt
      · simp [h0]
      · simp [hlt]
  have hoc : oidc_expiry_check cfg now sess = (false, clearOidc sess) := by
    unfold oidc_expiry_check
    rw [hoauth, hauth, hexp']
    rfl
  have hbp : oidcBypassAvail cfg now sess = false := by
    unfold oidcBypassAvail
    rw [hoc]
    rfl
  unfold authPhase
  rw [hoc, hbp, hnopin]
  simp [clearOidc]

/-- Witness for C8: a caller with a federated session expired at 5,
observed at time 10 with no pin in the body, gets the session invalidated
and a "PIN required" answer. -/
theorem oidc_expiry_invalidates_witness :
    (open_door exCfgOidc (exReq (some none)) exSid 10 (freshRL 0) exSessOidcExpired
        .exc).sess.oidc_authenticated = false ∧
      (open_door exCfgOidc (exReq (some none)) exSid 10 (freshRL 0) exSessOidcExpired
        .exc).sess.oidc_user = none ∧
      (open_door exCfgOidc (exReq (some none)) exSid 10 (freshRL 0) exSessOidcExpired
        .exc).sess.oidc_groups = [] ∧
      (open_door exCfgOidc (exReq (some none)) exSid 10 (freshRL 0) exSessOidcExpired
        .exc).sess.oidc_exp = none ∧
      (open_door exCfgOidc (exReq (some none)) exSid 10 (freshRL 0) exSessOidcExpired
        .exc).verdict = .pinRequired ∧
      (open_door exCfgOidc (exReq (some none)) exSid 10 (freshRL 0) exSessOidcExpired
        .exc).rl = freshRL 0 ∧
      (open_door exCfgOidc (exReq (some none)) exSid 10 (freshRL 0) exSessOidcExpired
        .exc).actuatorCalled = false :=
  oidc_expiry_invalidates exCfgOidc (exReq (some none)) exSid 10 (freshRL 0)
    exSessOidcExpired .exc (by decide) (by decide) (by decide) (by decide) (by decide)
    (by decide) (by decide) (by decide) (Or.inr ⟨5, rfl, Or.inr (by decide)⟩) (by decide)

/-- Updating a key and reading it back yields the new value. -/
lemma upd_same {α : Type} (f : List Char → α) (k : List Char) (v : α) : upd f k v k = v := by
  unfold upd
  simp

/-- Updating a key leaves every other key unchanged. -/
lemma upd_other {α : Type} (f : List Char → α) (k v : _) (k' : List Char) (h : k' ≠ k) :
    upd f k v k' = f k' := by
  unfold upd
  simp [h]

/-- Activity of a present in-memory block entry is the time comparison. -/
lemma memActive_some (t now : Nat) : memActive (some t) now = decide (now < t) := rfl

/-- The federated expiry re-check never touches the persisted block mirror. -/
lemma oidc_expiry_check_blocked_until (cfg : Config) (now : Nat) (sess : SessionData) :
    ((oidc_expiry_check cfg now sess).2).blocked_until_ts = sess.blocked_until_ts := by
  simp only [oidc_expiry_check, clearOidc]
  split <;> rfl

/-- A successful format validation forces the all-digit 4-to-8 condition. -/
lemma validate_pin_cond_of_eq {s : List Char}
    (hfmt : validate_pin_input (.str s) = (true, some s)) :
    (pyIsdigit s && decide (4 ≤ s.length) && decide (s.length ≤ 8)) = true := by
  cases hcnd : (pyIsdigit s && decide (4 ≤ s.length) && decide (s.length ≤ 8)) with
  | true => rfl
  | false => simp [validate_pin_input, hcnd] at hfmt

/-- A pin that passes format validation is truthy (nonempty). -/
lemma truthy_of_validated {s : List Char}
    (hfmt : validate_pin_input (.str s) = (true, some s)) :
    PyVal.truthy (.str s) = true := by
  have hc := validate_pin_cond_of_eq hfmt
  unfold pyIsdigit at hc
  show (!s.isEmpty) = true
  cases he : s.isEmpty with
  | false => rfl
  | true => rw [he] at hc; simp at hc

/-- C4: a well-formed PIN that matches no user increments all three
counters and then exactly one consequence follows, by precedence: if the
session counter has reached `SESSION_MAX_ATTEMPTS`, a session block of
`BLOCK_TIME` is set both in memory and in the cookie mirror (even if the IP
threshold is also reached); otherwise, if the IP counter has reached
`MAX_ATTEMPTS`, an IP block of `BLOCK_TIME` is set; otherwise a progressive
delay is slept and the denial reports the minimum of the two remaining
budgets. -/
theorem failed_guess_precedence (cfg : Config) (req : Request) (session_id : List Char)
    (now : Nat) (rl : RLState) (sess : SessionData) (act : ActuatorOutcome)
    (o : OutDoor) (s : List Char)
    (ho : o = open_door cfg req session_id now rl sess act)
    (hsusp : is_request_suspicious req.user_agent = false)
    (hwin : now - rl.global_last_reset ≤ 3600)
    (hglob : rl.global_failed_attempts < cfg.MAX_GLOBAL_ATTEMPTS_PER_HOUR)
    (hp : persActive sess.blocked_until_ts now = false)
    (hs : memActive (rl.session_blocked_until session_id) now = false)
    (hi : memActive (rl.ip_blocked_until (reqId cfg req)) now = false)
    (hbody : req.body = some (some (.str s)))
    (hfmt : validate_pin_input (.str s) = (true, some s))
    (hnomatch : matchPin cfg.users s = none)
    (hbt : 0 < cfg.BLOCK_TIME) :
    o.rl.ip_failed_attempts (reqId cfg req) = rl.ip_failed_attempts (reqId cfg req) + 1 ∧
      o.rl.session_failed_attempts session_id =
        rl.session_failed_attempts session_id + 1 ∧
      o.rl.global_failed_attempts = rl.global_failed_attempts + 1 ∧
      (if cfg.SESSION_MAX_ATTEMPTS ≤ rl.session_failed_attempts session_id + 1 then
        o.rl.session_blocked_until session_id = some (now + cfg.BLOCK_TIME) ∧
          o.sess.blocked_until_ts = some (now + cfg.BLOCK_TIME) ∧
          o.rl.ip_blocked_until (reqId cfg req) = rl.ip_blocked_until (reqId cfg req) ∧
          o.verdict = .authFailure .sessionBlockedNew (some (now + cfg.BLOCK_TIME)) ∧
          o.delayApplied = 0
      else if cfg.MAX_ATTEMPTS ≤ rl.ip_failed_attempts (reqId cfg req) + 1 then
        o.rl.ip_blocked_until (reqId cfg req) = some (now + cfg.BLOCK_TIME) ∧
          o.rl.session_blocked_until session_id = rl.session_blocked_until session_id ∧
          o.sess.blocked_until_ts = sess.blocked_until_ts ∧
          o.verdict = .authFailure .ipBlockedNew (some (now + cfg.BLOCK_TIME)) ∧
          o.delayApplied = 0
      else
        o.rl.session_blocked_until session_id = rl.session_blocked_until session_id ∧
          o.rl.ip_blocked_until (reqId cfg req) = rl.ip_blocked_until (reqId cfg req) ∧
          o.sess.blocked_until_ts = sess.blocked_until_ts ∧
          o.verdict = .authFailure
            (.remaining (min
              ((cfg.SESSION_MAX_ATTEMPTS : Int) -
                ((rl.session_failed_attempts session_id : Nat) + 1 : Nat))
              ((cfg.MAX_ATTEMPTS : Int) -
                ((rl.ip_failed_attempts (reqId cfg req) : Nat) + 1 : Nat)))) none ∧
          o.delayApplied = get_delay_seconds (rl.session_failed_attempts session_id + 1)) := by
  subst ho
  rw [open_door_eq_authPhase cfg req session_id now rl sess act hsusp hwin hglob hp hs hi]
  have hpin : pinFromRequest req = .str s := by
    unfold pinFromRequest
    rw [hbody]
    rfl
  have htr := truthy_of_validated hfmt
  have hkey : pinKeyPresent req = true := by
    unfold pinKeyPresent
    rw [hbody]
  have hsessbu := oidc_expiry_check_blocked_until cfg now sess
  have hlt : now < now + cfg.BLOCK_TIME := by omega
  simp only [authPhase, hpin, htr, hkey, hfmt, hnomatch, Bool.not_true, Bool.false_and,
    Bool.false_eq_true, if_false, ite_false, Option.getD_some]
  by_cases hsm : cfg.SESSION_MAX_ATTEMPTS ≤ rl.session_failed_attempts session_id + 1
  · rw [if_pos hsm]
    simp [failedGuessStep, upd_same, hsm, memActive_some, hlt]
  · rw [if_neg hsm]
    by_cases hma : cfg.MAX_ATTEMPTS ≤ rl.ip_failed_attempts (reqId cfg req) + 1
    · rw [if_pos hma]
      simp [failedGuessStep, upd_same, hsm, hma, hs, memActive_some, hlt, hsessbu]
    · rw [if_neg hma]
      simp [failedGuessStep, upd_same, hsm, hma, hs, hi, hsessbu]

/-- Witness for C4: the first wrong pin "9999" from a fresh caller
increments every counter and lands in the progressive-delay branch with
2 = min(3 - 1, 5 - 1) attempts remaining. -/
theorem failed_guess_precedence_witness :
    (open_door exCfg exReq9999 exSid 100 (freshRL 0) exSess .exc).rl.ip_failed_attempts
        (reqId exCfg exReq9999) = (freshRL 0).ip_failed_attempts (reqId exCfg exReq9999) + 1 ∧
      (open_door exCfg exReq9999 exSid 100 (freshRL 0) exSess
          .exc).rl.session_failed_attempts exSid =
        (freshRL 0).session_failed_attempts exSid + 1 ∧
      (open_door exCfg exReq9999 exSid 100 (freshRL 0) exSess
          .exc).rl.global_failed_attempts =
        (freshRL 0).global_failed_attempts + 1 ∧
      (if exCfg.SESSION_MAX_ATTEMPTS ≤ (freshRL 0).session_failed_attempts exSid + 1 then
        (open_door exCfg exReq9999 exSid 100 (freshRL 0) exSess
            .exc).rl.session_blocked_until exSid = some (100 + exCfg.BLOCK_TIME) ∧
          (open_door exCfg exReq9999 exSid 100 (freshRL 0) exSess
            .exc).sess.blocked_until_ts = some (100 + exCfg.BLOCK_TIME) ∧
          (open_door exCfg exReq9999 exSid 100 (freshRL 0) exSess
            .exc).rl.ip_blocked_until (reqId exCfg exReq9999) =
            (freshRL 0).ip_blocked_until (reqId exCfg exReq9999) ∧
          (open_door exCfg exReq9999 exSid 100 (freshRL 0) exSess .exc).verdict =
            .authFailure .sessionBlockedNew (some (100 + exCfg.BLOCK_TIME)) ∧
          (open_door exCfg exReq9999 exSid 100 (freshRL 0) exSess .exc).delayApplied = 0
      else if exCfg.MAX_ATTEMPTS ≤ (freshRL 0).ip_failed_attempts (reqId exCfg exReq9999) + 1 then
        (open_door exCfg exReq9999 exSid 100 (freshRL 0) exSess
            .exc).rl.ip_blocked_until (reqId exCfg exReq9999) =
            some (100 + exCfg.BLOCK_TIME) ∧
          (open_door exCfg exReq9999 exSid 100 (freshRL 0) exSess
            .exc).rl.session_blocked_until exSid = (freshRL 0).session_blocked_until exSid ∧
          (open_door exCfg exReq9999 exSid 100 (freshRL 0) exSess
            .exc).sess.blocked_until_ts = exSess.blocked_until_ts ∧
          (open_door exCfg exReq9999 exSid 100 (freshRL 0) exSess .exc).verdict =
            .authFailure .ipBlockedNew (some (100 + exCfg.BLOCK_TIME)) ∧
          (open_door exCfg exReq9999 exSid 100 (freshRL 0) exSess .exc).delayApplied = 0
      else
        (open_door exCfg exReq9999 exSid 100 (freshRL 0) exSess
            .exc).rl.session_blocked_until exSid = (freshRL 0).session_blocked_until exSid ∧
          (open_door exCfg exReq9999 exSid 100 (freshRL 0) exSess
            .exc).rl.ip_blocked_until (reqId exCfg exReq9999) =
            (freshRL 0).ip_blocked_until (reqId exCfg exReq9999) ∧
          (open_door exCfg exReq9999 exSid 100 (freshRL 0) exSess
            .exc).sess.blocked_until_ts = exSess.blocked_until_ts ∧
          (open_door exCfg exReq9999 exSid 100 (freshRL 0) exSess .exc).verdict =
            .authFailure
              (.remaining (min
                ((exCfg.SESSION_MAX_ATTEMPTS : Int) -
                  (((freshRL 0).session_failed_attempts exSid : Nat) + 1 : Nat))
                ((exCfg.MAX_ATTEMPTS : Int) -
                  (((freshRL 0).ip_failed_attempts (reqId exCfg exReq9999) : Nat) + 1 : Nat)))) none ∧
          (open_door exCfg exReq9999 exSid 100 (freshRL 0) exSess .exc).delayApplied =
            get_delay_seconds ((freshRL 0).session_failed_attempts exSid + 1)) :=
  failed_guess_precedence exCfg exReq9999 exSid 100 (freshRL 0) exSess .exc
    (open_door exCfg exReq9999 exSid 100 (freshRL 0) exSess .exc)
    (String.toList "9999") rfl (by decide) (by decide) (by decide) (by decide)
    (by decide) (by decide) rfl (by decide) (by decide) (by decide)

/-- C3 counterexample: an authorized federated (OIDC) door opening with no
active block leaves the stale persisted cookie mirror in place (still 5,
merely ignored) and leaves the global failure counter at 7 — so neither
"all three counters reset" nor "persisted mirror cleared on both paths"
holds. -/
theorem success_reset_counterexample :
    (open_door exCfgOidc (exReq none) exSid 10 exRlCounters exSessOidc .exc).verdict =
        .successTest (String.toList "kim") ∧
      (open_door exCfgOidc (exReq none) exSid 10 exRlCounters
          exSessOidc .exc).sess.blocked_until_ts = some 5 ∧
      (open_door exCfgOidc (exReq none) exSid 10 exRlCounters
          exSessOidc .exc).rl.global_failed_attempts = 7 ∧
      (open_door exCfgOidc (exReq none) exSid 10 exRlCounters
          exSessOidc .exc).rl.ip_failed_attempts exId = 0 := by
  refine ⟨by decide, by decide, by decide, by decide⟩

/-- C3 amended: on a successful authorization with no block active, the IP
and session failure counters are reset to zero and the in-memory block
entries cleared on both paths, but the persisted session-cookie mirror is
cleared only on the PIN path — the federated path leaves the cookie
untouched — and the global failure counter is not reset on either path. -/
theorem success_reset_scope (cfg : Config) (req : Request) (session_id : List Char)
    (now : Nat) (rl : RLState) (sess : SessionData) (act : ActuatorOutcome)
    (o : OutDoor)
    (ho : o = open_door cfg req session_id now rl sess act)
    (hsusp : is_request_suspicious req.user_agent = false)
    (hwin : now - rl.global_last_reset ≤ 3600)
    (hglob : rl.global_failed_attempts < cfg.MAX_GLOBAL_ATTEMPTS_PER_HOUR)
    (hp : persActive sess.blocked_until_ts now = false)
    (hs : memActive (rl.session_blocked_until session_id) now = false)
    (hi : memActive (rl.ip_blocked_until (reqId cfg req)) now = false) :
    (∀ s u, req.body = some (some (.str s)) →
      validate_pin_input (.str s) = (true, some s) → matchPin cfg.users s = some u →
      o.rl.ip_failed_attempts (reqId cfg req) = 0 ∧
        o.rl.session_failed_attempts session_id = 0 ∧
        o.rl.ip_blocked_until (reqId cfg req) = none ∧
        o.rl.session_blocked_until session_id = none ∧
        o.sess.blocked_until_ts = none ∧
        o.rl.global_failed_attempts = rl.global_failed_attempts) ∧
      ((pinFromRequest req).truthy = false → oidcBypassAvail cfg now sess = true →
        o.rl.ip_failed_attempts (reqId cfg req) = 0 ∧
          o.rl.session_failed_attempts session_id = 0 ∧
          o.rl.ip_blocked_until (reqId cfg req) = none ∧
          o.rl.session_blocked_until session_id = none ∧
          o.sess.blocked_until_ts = sess.blocked_until_ts ∧
          o.rl.global_failed_attempts = rl.global_failed_attempts) := by
  subst ho
  rw [open_door_eq_authPhase cfg req session_id now rl sess act hsusp hwin hglob hp hs hi]
  have hrc : recheckBlocked rl session_id (reqId cfg req) now = false := by
    unfold recheckBlocked
    rw [hs, hi]
    rfl
  have hsessbu := oidc_expiry_check_blocked_until cfg now sess
  constructor
  · intro s u hbody hfmt hmatch
    have hpin : pinFromRequest req = .str s := by
      unfold pinFromRequest
      rw [hbody]
      rfl
    have htr := truthy_of_validated hfmt
    have hkey : pinKeyPresent req = true := by
      unfold pinKeyPresent
      rw [hbody]
    simp [authPhase, hpin, htr, hkey, hfmt, hmatch, hrc, upd_same]
  · intro htr hbp
    simp [authPhase, htr, hbp, hrc, oidcSuccessReset, hs, hi, upd_same, hsessbu]

/-- Witness for the amended C3: the PIN path (correct pin "1234", stale
expired mirror 5) clears the cookie mirror and leaves the global counter at
7, while the federated path at the same state leaves the cookie mirror at 5
and the global counter at 7; both reset the per-caller counters. -/
theorem success_reset_scope_witness :
    ((open_door exCfg (exReq (some (some (.str (String.toList "1234"))))) exSid 10
        exRlCounters exSessOidc .exc).rl.ip_failed_attempts
          (reqId exCfg (exReq (some (some (.str (String.toList "1234")))))) = 0 ∧
      (open_door exCfg (exReq (some (some (.str (String.toList "1234"))))) exSid 10
        exRlCounters exSessOidc .exc).rl.session_failed_attempts exSid = 0 ∧
      (open_door exCfg (exReq (some (some (.str (String.toList "1234"))))) exSid 10
        exRlCounters exSessOidc .exc).rl.ip_blocked_until
          (reqId exCfg (exReq (some (some (.str (String.toList "1234")))))) = none ∧
      (open_door exCfg (exReq (some (some (.str (String.toList "1234"))))) exSid 10
        exRlCounters exSessOidc .exc).rl.session_blocked_until exSid = none ∧
      (open_door exCfg (exReq (some (some (.str (String.toList "1234"))))) exSid 10
        exRlCounters exSessOidc .exc).sess.blocked_until_ts = none ∧
      (open_door exCfg (exReq (some (some (.str (String.toList "1234"))))) exSid 10
        exRlCounters exSessOidc .exc).rl.global_failed_attempts =
        exRlCounters.global_failed_attempts) ∧
      ((open_door exCfgOidc (exReq none) exSid 10 exRlCounters
          exSessOidc .exc).rl.ip_failed_attempts (reqId exCfgOidc (exReq none)) = 0 ∧
        (open_door exCfgOidc (exReq none) exSid 10 exRlCounters
          exSessOidc .exc).rl.session_failed_attempts exSid = 0 ∧
        (open_door exCfgOidc (exReq none) exSid 10 exRlCounters
          exSessOidc .exc).rl.ip_blocked_until (reqId exCfgOidc (exReq none)) = none ∧
        (open_door exCfgOidc (exReq none) exSid 10 exRlCounters
          exSessOidc .exc).rl.session_blocked_until exSid = none ∧
        (open_door exCfgOidc (exReq none) exSid 10 exRlCounters
          exSessOidc .exc).sess.blocked_until_ts = exSessOidc.blocked_until_ts ∧
        (open_door exCfgOidc (exReq none) exSid 10 exRlCounters
          exSessOidc .exc).rl.global_failed_attempts =
          exRlCounters.global_failed_attempts) :=
  ⟨(success_reset_scope exCfg (exReq (some (some (.str (String.toList "1234"))))) exSid 10
      exRlCounters exSessOidc .exc _ rfl (by decide) (by decide) (by decide) (by decide)
      (by decide) (by decide)).1 (String.toList "1234") (String.toList "alice") rfl
      (by decide) (by decide),
    (success_reset_scope exCfgOidc (exReq none) exSid 10 exRlCounters exSessOidc .exc _
      rfl (by decide) (by decide) (by decide) (by decide) (by decide) (by decide)).2
      (by decide) (by decide)⟩

/-- C10 counterexample: a request whose pin field is the empty string — a
value that fails format validation — but arrives with a valid authorized
federated session is not counted at all: the falsy pin routes it through
the OIDC bypass, the door opens and no counter is incremented. -/
theorem invalid_format_counts_counterexample :
    (validate_pin_input (.str [])).1 = false ∧
      (open_door exCfgOidc (exReq (some (some (.str [])))) exSid 10 exRlCounters
        exSessOidc .exc).verdict = .successTest (String.toList "kim") ∧
      (open_door exCfgOidc (exReq (some (some (.str [])))) exSid 10 exRlCounters
        exSessOidc .exc).rl.global_failed_attempts = 7 := by
  refine ⟨rfl, by decide, by decide⟩

/-- C10 amended: for a request passing the pre-checks, a pin field that
fails format validation increments all three counters, changes no block
state and sleeps no delay — provided the pin value is truthy or no
authorized federated bypass is available (a falsy pin with a valid
federated session is served by the bypass instead and counts nothing); and
block entries are only ever (newly) set by the branch that answers the
invalid-pin authentication failure, i.e. a correctly-formatted pin matching
no user. -/
theorem invalid_format_counts_no_block (cfg : Config) (req : Request)
    (session_id : List Char) (now : Nat) (rl : RLState) (sess : SessionData)
    (act : ActuatorOutcome) (o : OutDoor)
    (ho : o = open_door cfg req session_id now rl sess act)
    (hsusp : is_request_suspicious req.user_agent = false)
    (hwin : now - rl.global_last_reset ≤ 3600)
    (hglob : rl.global_failed_attempts < cfg.MAX_GLOBAL_ATTEMPTS_PER_HOUR)
    (hp : persActive sess.blocked_until_ts now = false)
    (hs : memActive (rl.session_blocked_until session_id) now = false)
    (hi : memActive (rl.ip_blocked_until (reqId cfg req)) now = false) :
    (∀ v, pinKeyPresent req = true → pinFromRequest req = v →
      (validate_pin_input v).1 = false →
      (PyVal.truthy v = true ∨ oidcBypassAvail cfg now sess = false) →
      o.rl.ip_failed_attempts (reqId cfg req) =
          rl.ip_failed_attempts (reqId cfg req) + 1 ∧
        o.rl.session_failed_attempts session_id =
          rl.session_failed_attempts session_id + 1 ∧
        o.rl.global_failed_attempts = rl.global_failed_attempts + 1 ∧
        o.rl.session_blocked_until = rl.session_blocked_until ∧
        o.rl.ip_blocked_until = rl.ip_blocked_until ∧
        o.sess.blocked_until_ts = sess.blocked_until_ts ∧
        o.delayApplied = 0 ∧
        o.verdict = .invalidFormat) ∧
      (∀ k, ((o.rl.session_blocked_until k ≠ rl.session_blocked_until k ∧
          o.rl.session_blocked_until k ≠ none) ∨
        (o.rl.ip_blocked_until k ≠ rl.ip_blocked_until k ∧
          o.rl.ip_blocked_until k ≠ none) ∨
        (o.sess.blocked_until_ts ≠ sess.blocked_until_ts ∧
          o.sess.blocked_until_ts ≠ none)) →
        ∃ r bu, o.verdict = .authFailure r bu) := by
  subst ho
  rw [open_door_eq_authPhase cfg req session_id now rl sess act hsusp hwin hglob hp hs hi]
  have hrc : recheckBlocked rl session_id (reqId cfg req) now = false := by
    unfold recheckBlocked
    rw [hs, hi]
    rfl
  have hsessbu := oidc_expiry_check_blocked_until cfg now sess
  constructor
  · intro v hkey hpin hv hnb
    have hguard : (!(pinFromRequest req).truthy && oidcBypassAvail cfg now sess) = false := by
      rcases hnb with ht | hb
      · rw [hpin, ht]
        rfl
      · rw [hb, Bool.and_false]
    simp only [authPhase]
    rw [hguard, hpin, hkey, hv]
    simp [upd_same, hsessbu]
  · intro k hk
    by_cases hA : (!(pinFromRequest req).truthy && oidcBypassAvail cfg now sess) = true
    · exfalso
      simp only [authPhase] at hk
      rw [hA, hrc] at hk
      simp only [if_true, Bool.false_eq_true, if_false, ite_true, ite_false] at hk
      rcases hk with ⟨h1, h2⟩ | ⟨h1, h2⟩ | ⟨h1, h2⟩
      · rw [oidcSuccessReset, if_pos (by rw [hs, hi]; rfl)] at h1 h2
        by_cases hkk : k = session_id
        · subst hkk
          exact h2 (by simp [upd_same])
        · exact h1 (by simp [upd_other _ _ _ _ hkk])
      · rw [oidcSuccessReset, if_pos (by rw [hs, hi]; rfl)] at h1 h2
        by_cases hkk : k = reqId cfg req
        · subst hkk
          exact h2 (by simp [upd_same])
        · exact h1 (by simp [upd_other _ _ _ _ hkk])
      · exact h1 hsessbu
    · rw [Bool.not_eq_true] at hA
      by_cases hK : pinKeyPresent req = true
      · by_cases hv : (validate_pin_input (pinFromRequest req)).1 = true
        · rcases hm : matchPin cfg.users ((validate_pin_input (pinFromRequest req)).2.getD []) with _ | u
          · simp only [authPhase]
            rw [hA, hK, hv, hm]
            simp only [Bool.false_eq_true, if_false, Bool.not_true, ite_false]
            exact ⟨_, _, rfl⟩
          · exfalso
            simp only [authPhase] at hk
            rw [hA, hK, hv, hm, hrc] at hk
            simp only [Bool.false_eq_true, if_false, Bool.not_true, ite_false,
              ite_true] at hk
            rcases hk with ⟨h1, h2⟩ | ⟨h1, h2⟩ | ⟨h1, h2⟩
            · by_cases hkk : k = session_id
              · subst hkk
                exact h2 (by simp [upd_same])
              · exact h1 (by simp [upd_other _ _ _ _ hkk])
            · by_cases hkk : k = reqId cfg req
              · subst hkk
                exact h2 (by simp [upd_same])
              · exact h1 (by simp [upd_other _ _ _ _ hkk])
            · exact h2 rfl
        · exfalso
          rw [Bool.not_eq_true] at hv
          simp only [authPhase] at hk
          rw [hA, hK, hv] at hk
          simp only [Bool.false_eq_true, if_false, Bool.not_true, Bool.not_false,
            ite_false, ite_true] at hk
          rcases hk with ⟨h1, h2⟩ | ⟨h1, h2⟩ | ⟨h1, h2⟩
          · exact h1 rfl
          · exact h1 rfl
          · exact h1 hsessbu
      · exfalso
        rw [Bool.not_eq_true] at hK
        simp only [authPhase] at hk
        rw [hA, hK] at hk
        simp only [Bool.false_eq_true, if_false, Bool.not_false, ite_false,
          ite_true] at hk
        rcases hk with ⟨h1, h2⟩ | ⟨h1, h2⟩ | ⟨h1, h2⟩
        · exact h1 rfl
        · exact h1 rfl
        · exact h1 hsessbu

/-- Witness for the amended C10: the malformed (truthy) pin "12a4" from a
fresh caller bumps all three counters, leaves every block slot untouched,
sleeps nothing and is answered "invalid format". -/
theorem invalid_format_counts_no_block_witness :
    (open_door exCfg exReq12a4 exSid 100 (freshRL 0) exSess .exc).rl.ip_failed_attempts
        (reqId exCfg exReq12a4) = (freshRL 0).ip_failed_attempts (reqId exCfg exReq12a4) + 1 ∧
      (open_door exCfg exReq12a4 exSid 100 (freshRL 0) exSess
          .exc).rl.session_failed_attempts exSid =
        (freshRL 0).session_failed_attempts exSid + 1 ∧
      (open_door exCfg exReq12a4 exSid 100 (freshRL 0) exSess
          .exc).rl.global_failed_attempts = (freshRL 0).global_failed_attempts + 1 ∧
      (open_door exCfg exReq12a4 exSid 100 (freshRL 0) exSess
          .exc).rl.session_blocked_until = (freshRL 0).session_blocked_until ∧
      (open_door exCfg exReq12a4 exSid 100 (freshRL 0) exSess
          .exc).rl.ip_blocked_until = (freshRL 0).ip_blocked_until ∧
      (open_door exCfg exReq12a4 exSid 100 (freshRL 0) exSess
          .exc).sess.blocked_until_ts = exSess.blocked_until_ts ∧
      (open_door exCfg exReq12a4 exSid 100 (freshRL 0) exSess .exc).delayApplied = 0 ∧
      (open_door exCfg exReq12a4 exSid 100 (freshRL 0) exSess .exc).verdict =
        .invalidFormat :=
  (invalid_format_counts_no_block exCfg exReq12a4 exSid 100 (freshRL 0) exSess .exc
      (open_door exCfg exReq12a4 exSid 100 (freshRL 0) exSess .exc) rfl (by decide)
      (by decide) (by decide) (by decide) (by decide) (by decide)).1
    (.str (String.toList "12a4")) (by decide) rfl (by decide) (Or.inl (by decide))

/-- Re-updating a key overwrites the earlier update. -/
lemma upd_upd {α : Type} (f : List Char → α) (k : List Char) (a b : α) :
    upd (upd f k a) k b = upd f k b := by
  funext k'
  unfold upd
  by_cases h : k' = k <;> simp [h]

/-- Updating the zero table with zero is the zero table. -/
lemma upd_fun_zero (k : List Char) : upd (fun _ => (0 : Nat)) k 0 = fun _ => 0 := by
  funext k'
  unfold upd
  split <;> rfl

/-- A fresh state is the zero point of a failure streak. -/
lemma freshRL_eq_midRL (t0 : Nat) (session_id identifier : List Char) :
    freshRL t0 = midRL t0 0 session_id identifier := by
  unfold freshRL midRL
  rw [upd_fun_zero, upd_fun_zero]

/-- A disabled or unauthenticated federated session passes the expiry
re-check untouched. -/
lemma oidc_expiry_check_id (cfg : Config) (now : Nat) (sess : SessionData)
    (hoa : cfg.oauthEnabled = false ∨ sess.oidc_authenticated = false) :
    oidc_expiry_check cfg now sess = (false, sess) := by
  have hfalse : (cfg.oauthEnabled && sess.oidc_authenticated) = false := by
    rcases hoa with h | h <;> simp [h]
  simp [oidc_expiry_check, hfalse]

/-- A non-suspicious wrong-pin request that passes every pre-check reduces
to the failed-guess branch. -/
lemma open_door_wrong_pin (cfg : Config) (req : Request) (session_id : List Char)
    (now : Nat) (rl : RLState) (sess : SessionData) (act : ActuatorOutcome)
    (s : List Char)
    (hsusp : is_request_suspicious req.user_agent = false)
    (hwin : now - rl.global_last_reset ≤ 3600)
    (hglob : rl.global_failed_attempts < cfg.MAX_GLOBAL_ATTEMPTS_PER_HOUR)
    (hp : persActive sess.blocked_until_ts now = false)
    (hs : memActive (rl.session_blocked_until session_id) now = false)
    (hi : memActive (rl.ip_blocked_until (reqId cfg req)) now = false)
    (hbody : req.body = some (some (.str s)))
    (hfmt : validate_pin_input (.str s) = (true, some s))
    (hnomatch : matchPin cfg.users s = none) :
    open_door cfg req session_id now rl sess act =
      failedGuessStep cfg now rl (oidc_expiry_check cfg now sess).2 session_id
        (reqId cfg req) := by
  rw [open_door_eq_authPhase cfg req session_id now rl sess act hsusp hwin hglob hp hs hi]
  have hpin : pinFromRequest req = .str s := by
    unfold pinFromRequest
    rw [hbody]
    rfl
  have htr := truthy_of_validated hfmt
  have hkey : pinKeyPresent req = true := by
    unfold pinKeyPresent
    rw [hbody]
  simp only [authPhase, hpin, htr, hkey, hfmt, hnomatch, Bool.not_true, Bool.false_and,
    Bool.false_eq_true, if_false, ite_false, Option.getD_some]

/-- One wrong pin in mid-streak: below every threshold, the attempt only
moves the streak from `i` to `i + 1` failures and leaves the session data
untouched. -/
lemma wrong_pin_mid_step (cfg : Config) (req : Request) (session_id : List Char)
    (sess : SessionData) (act : ActuatorOutcome) (s : List Char) (t0 i t : Nat)
    (hsusp : is_request_suspicious req.user_agent = false)
    (hbody : req.body = some (some (.str s)))
    (hfmt : validate_pin_input (.str s) = (true, some s))
    (hnomatch : matchPin cfg.users s = none)
    (hcb : sess.blocked_until_ts = none)
    (hoa : cfg.oauthEnabled = false ∨ sess.oidc_authenticated = false)
    (hi1 : i + 1 < cfg.SESSION_MAX_ATTEMPTS)
    (hsm_ma : cfg.SESSION_MAX_ATTEMPTS ≤ cfg.MAX_ATTEMPTS)
    (hsm_g : cfg.SESSION_MAX_ATTEMPTS ≤ cfg.MAX_GLOBAL_ATTEMPTS_PER_HOUR)
    (hwt : t - t0 ≤ 3600) :
    (open_door cfg req session_id t (midRL t0 i session_id (reqId cfg req)) sess
        act).rl = midRL t0 (i + 1) session_id (reqId cfg req) ∧
      (open_door cfg req session_id t (midRL t0 i session_id (reqId cfg req)) sess
        act).sess = sess := by
  have hred := open_door_wrong_pin cfg req session_id t
    (midRL t0 i session_id (reqId cfg req)) sess act s hsusp (by exact hwt)
    (by show i < _; omega) (by rw [hcb]; rfl) rfl rfl hbody hfmt hnomatch
  rw [hred, oidc_expiry_check_id cfg t sess hoa]
  have hn1 : ¬ cfg.SESSION_MAX_ATTEMPTS ≤ i + 1 := by omega
  have hn2 : ¬ cfg.MAX_ATTEMPTS ≤ i + 1 := by omega
  constructor
  · simp [failedGuessStep, midRL, upd_same, upd_upd, hn1, hn2]
  · simp [failedGuessStep, midRL, upd_same, hn1, hn2]

/-- The wrong pin that crosses `SESSION_MAX_ATTEMPTS`: both the in-memory
session block and the cookie mirror are set to the same `t + BLOCK_TIME`. -/
lemma wrong_pin_block_step (cfg : Config) (req : Request) (session_id : List Char)
    (sess : SessionData) (act : ActuatorOutcome) (s : List Char) (t0 i t : Nat)
    (hsusp : is_request_suspicious req.user_agent = false)
    (hbody : req.body = some (some (.str s)))
    (hfmt : validate_pin_input (.str s) = (true, some s))
    (hnomatch : matchPin cfg.users s = none)
    (hcb : sess.blocked_until_ts = none)
    (hoa : cfg.oauthEnabled = false ∨ sess.oidc_authenticated = false)
    (hi1 : i + 1 = cfg.SESSION_MAX_ATTEMPTS)
    (hsm_g : cfg.SESSION_MAX_ATTEMPTS ≤ cfg.MAX_GLOBAL_ATTEMPTS_PER_HOUR)
    (hwt : t - t0 ≤ 3600) :
    (open_door cfg req session_id t (midRL t0 i session_id (reqId cfg req)) sess
        act).rl.session_blocked_until session_id = some (t + cfg.BLOCK_TIME) ∧
      (open_door cfg req session_id t (midRL t0 i session_id (reqId cfg req)) sess
        act).sess.blocked_until_ts = some (t + cfg.BLOCK_TIME) := by
  have hred := open_door_wrong_pin cfg req session_id t
    (midRL t0 i session_id (reqId cfg req)) sess act s hsusp (by exact hwt)
    (by show i < _; omega) (by rw [hcb]; rfl) rfl rfl hbody hfmt hnomatch
  rw [hred, oidc_expiry_check_id cfg t sess hoa]
  have hy : cfg.SESSION_MAX_ATTEMPTS ≤ i + 1 := by omega
  constructor
  · simp [failedGuessStep, midRL, upd_same, upd_upd, hy]
  · simp [failedGuessStep, midRL, upd_same, hy]

/-- Folding a below-threshold prefix of wrong pins advances the streak by
its length and leaves the session data untouched. -/
lemma run_attempts_mid (cfg : Config) (req : Request) (session_id : List Char)
    (sess : SessionData) (act : ActuatorOutcome) (s : List Char) (t0 : Nat)
    (hsusp : is_request_suspicious req.user_agent = false)
    (hbody : req.body = some (some (.str s)))
    (hfmt : validate_pin_input (.str s) = (true, some s))
    (hnomatch : matchPin cfg.users s = none)
    (hcb : sess.blocked_until_ts = none)
    (hoa : cfg.oauthEnabled = false ∨ sess.oidc_authenticated = false)
    (hsm_ma : cfg.SESSION_MAX_ATTEMPTS ≤ cfg.MAX_ATTEMPTS)
    (hsm_g : cfg.SESSION_MAX_ATTEMPTS ≤ cfg.MAX_GLOBAL_ATTEMPTS_PER_HOUR) :
    ∀ (ts : List Nat) (i : Nat), i + ts.length < cfg.SESSION_MAX_ATTEMPTS →
      (∀ t ∈ ts, t - t0 ≤ 3600) →
      run_attempts cfg req session_id act ts
          (midRL t0 i session_id (reqId cfg req), sess) =
        (midRL t0 (i + ts.length) session_id (reqId cfg req), sess) := by
  intro ts
  induction ts with
  | nil =>
      intro i _ _
      simp [run_attempts]
  | cons t ts ih =>
      intro i hlen hwt
      have hstep := wrong_pin_mid_step cfg req session_id sess act s t0 i t hsusp
        hbody hfmt hnomatch hcb hoa (by simp [List.length_cons] at hlen; omega)
        hsm_ma hsm_g (hwt t (List.mem_cons_self t ts))
      simp only [run_attempts]
      rw [hstep.1, hstep.2, ih (i + 1) (by simp [List.length_cons] at hlen; omega)
        (fun t' ht' => hwt t' (List.mem_cons_of_mem t ht'))]
      have : i + 1 + ts.length = i + (t :: ts).length := by
        simp [List.length_cons]
        omega
      rw [this]

/-- Splitting a run of attempts. -/
lemma run_attempts_append (cfg : Config) (req : Request) (session_id : List Char)
    (act : ActuatorOutcome) (l1 l2 : List Nat) (st : RLState × SessionData) :
    run_attempts cfg req session_id act (l1 ++ l2) st =
      run_attempts cfg req session_id act l2 (run_attempts cfg req session_id act l1 st) := by
  induction l1 generalizing st with
  | nil => rfl
  | cons t ts ih =>
      simp only [List.cons_append, run_attempts]
      exact ih _

/-- C5: starting from a fresh caller, any sequence of exactly
`SESSION_MAX_ATTEMPTS` wrong pins from the same session (all inside the
global hourly window, thresholds configured as documented with the session
threshold at most the IP and global ones) blocks the session for exactly
`BLOCK_TIME` from the instant of the triggering failure, and the in-memory
block and the persisted cookie mirror then carry the same expiry. -/
theorem session_lockout_consistent (cfg : Config) (req : Request) (session_id : List Char)
    (sess : SessionData) (act : ActuatorOutcome) (s : List Char) (t0 : Nat)
    (ts : List Nat) (tk : Nat)
    (hsusp : is_request_suspicious req.user_agent = false)
    (hbody : req.body = some (some (.str s)))
    (hfmt : validate_pin_input (.str s) = (true, some s))
    (hnomatch : matchPin cfg.users s = none)
    (hcb : sess.blocked_until_ts = none)
    (hoa : cfg.oauthEnabled = false ∨ sess.oidc_authenticated = false)
    (hlen : ts.length + 1 = cfg.SESSION_MAX_ATTEMPTS)
    (hsm_ma : cfg.SESSION_MAX_ATTEMPTS ≤ cfg.MAX_ATTEMPTS)
    (hsm_g : cfg.SESSION_MAX_ATTEMPTS ≤ cfg.MAX_GLOBAL_ATTEMPTS_PER_HOUR)
    (hws : ∀ t ∈ ts, t - t0 ≤ 3600) (hwk : tk - t0 ≤ 3600) :
    (run_attempts cfg req session_id act (ts ++ [tk])
        (freshRL t0, sess)).1.session_blocked_until session_id =
      some (tk + cfg.BLOCK_TIME) ∧
      (run_attempts cfg req session_id act (ts ++ [tk])
        (freshRL t0, sess)).2.blocked_until_ts = some (tk + cfg.BLOCK_TIME) := by
  rw [freshRL_eq_midRL t0 session_id (reqId cfg req),
    run_attempts_append cfg req session_id act ts [tk],
    run_attempts_mid cfg req session_id sess act s t0 hsusp hbody hfmt hnomatch hcb hoa
      hsm_ma hsm_g ts 0 (by omega) hws]
  have hfin := wrong_pin_block_step cfg req session_id sess act s t0 ts.length tk hsusp
    hbody hfmt hnomatch hcb hoa hlen hsm_g hwk
  simp only [run_attempts, Nat.zero_add]
  exact hfin

/-- Witness for C5: three wrong pins "9999" at times 0, 1, 2 from a fresh
caller under the default thresholds block the session until 302 in both the
in-memory table and the cookie mirror. -/
theorem session_lockout_consistent_witness :
    (run_attempts exCfg exReq9999 exSid .exc ([0, 1] ++ [2])
        (freshRL 0, exSess)).1.session_blocked_until exSid =
      some (2 + exCfg.BLOCK_TIME) ∧
      (run_attempts exCfg exReq9999 exSid .exc ([0, 1] ++ [2])
        (freshRL 0, exSess)).2.blocked_until_ts = some (2 + exCfg.BLOCK_TIME) :=
  session_lockout_consistent exCfg exReq9999 exSid exSess .exc
    (String.toList "9999") 0 [0, 1] 2 (by decide) rfl (by decide) (by decide) rfl
    (Or.inl rfl) (by decide) (by decide) (by decide) (by decide) (by decide)

end DoorOpener
